import Mathlib

/-!
Verification of the schedule-normalization and time-reflow core of the
study-planner application (src/index.tsx).

The embedding models, directly from the source:
- the clock-arithmetic primitive `addMinutes` (source lines 314-323),
- the schedule normalizer `transformedPlan` (source lines 163-196),
- the time-reflow engine `updateTopicTiming` (source lines 259-276),
- the quiz scorer `evaluateAnswers` (source lines 339-352).

Modelling conventions for the untyped JavaScript values:
- a missing/empty string field is embedded as `""` (both are falsy in JS and
  the code only tests them with truthiness checks such as `item.topic` and
  `qnaSession?.end_time || item.end_time`);
- a missing numeric minute field is embedded as `0` (falsy, and coerced to 0
  by JS arithmetic on `null`); minute counts are embedded as `Nat`;
- a missing `qna` array is embedded as `[]` (observationally equal to the
  `item.qna || []` default in the source);
- `Array.prototype.find` / `findIndex` / `filter` / `map` become the
  corresponding `List` operations; the in-place mutation of the copied plan
  array in `updateTopicTiming` becomes a pure indexed map;
- JS `String.prototype.split` on a one-character separator becomes
  `List.splitOn` on the character list of the string;
- JS `Math.floor(x / 60)` becomes `Int.fdiv x 60` and the JS remainder
  operator (sign of the dividend) becomes `Int.tmod`.
-/

namespace StudyPlanner

/-- Multiple-choice question record (source lines 31-35). -/
structure MCQ where
  question : String
  options : List String
  correct : String
deriving DecidableEq, Repr

/-- Session breakdown entry (source lines 24-29). -/
structure Session where
  type : String
  start_time : String
  end_time : String
  duration : Nat
deriving DecidableEq, Repr

/-- A normalized plan topic (source lines 37-48). -/
structure Topic where
  topic_id : Int
  topic : String
  start_time : String
  end_time : String
  allocated_time : Nat
  completed : Bool
  summary : String
  qna : List MCQ
  suggested_time : Nat
  sessions : List Session
deriving DecidableEq, Repr

/-- A raw backend schedule record as consumed by the normalizer
(`response.data.schedule` entries, source lines 163-196). Missing string
fields are embedded as `""`, missing numeric fields as `0`, a missing quiz
array as `[]`. -/
structure RawRecord where
  topic : String
  topic_id : Int
  type : String
  start_time : String
  end_time : String
  allocated_time : Nat
  duration : Nat
  summary : String
  qna : List MCQ
deriving DecidableEq, Repr

/-- Per-question evaluation record built by `evaluateAnswers`
(source lines 346-351). -/
structure AnswerResult where
  question : String
  correct : String
  selected : Option String
  isCorrect : Bool
deriving DecidableEq, Repr

/-- Model of the JS `Number()` conversion as used on the pieces of a clock
string (source line 316). It is exact on non-empty all-digit strings, which
is the only shape produced by the code's own renderer; any other input is
mapped to `0` as the stand-in for `NaN` (the behaviour of the source on
unparseable times is declared unspecified by the spec). -/
def jsNumber (cs : List Char) : Int :=
  if cs != [] && cs.all Char.isDigit then
    Int.ofNat (cs.foldl (fun n c => n * 10 + (c.toNat - 48)) 0)
  else 0

/-- Model of JS `s.padStart(2, '0')` (source line 322). -/
def padStart2 (s : String) : String :=
  if s.length ≥ 2 then s else String.mk (List.replicate (2 - s.length) '0') ++ s

/-- The clock-arithmetic primitive `addMinutes` (source lines 314-323).
JS `timeStr.split(' ')` and `time.split(':')` are embedded as `List.splitOn`
over the character list; destructuring an absent component yields the empty
list, exactly as JS yields `undefined` (both compare unequal to `"PM"` and
parse to the `NaN` stand-in `0`). -/
def addMinutes (timeStr : String) (minutes : Int) : String :=
  let parts := timeStr.toList.splitOn ' '
  let time := parts.headD []
  let period := (parts.drop 1).headD []
  let nums := (time.splitOn ':').map jsNumber
  let hour := nums.headD 0
  let min := (nums.drop 1).headD 0
  let base := hour * 60 + min + minutes
  let totalMinutes := if period == "PM".toList && hour != 12 then base + 720 else base
  let newHour0 := (Int.fdiv totalMinutes 60).tmod 12
  let newHour := if newHour0 == 0 then (12 : Int) else newHour0
  let newMin := totalMinutes.tmod 60
  let newPeriod := if totalMinutes >= 720 then "PM" else "AM"
  toString newHour ++ ":" ++ padStart2 (toString newMin) ++ " " ++ newPeriod

/-- The parsing half of `addMinutes` (source lines 315-318 with `minutes = 0`):
the minutes-since-midnight value the code assigns to a clock string. -/
def parseMinutes (timeStr : String) : Int :=
  let parts := timeStr.toList.splitOn ' '
  let time := parts.headD []
  let period := (parts.drop 1).headD []
  let nums := (time.splitOn ':').map jsNumber
  let hour := nums.headD 0
  let min := (nums.drop 1).headD 0
  if period == "PM".toList && hour != 12 then hour * 60 + min + 720 else hour * 60 + min

/-- The rendering half of `addMinutes` (source lines 319-322): the clock
string the code produces from a minutes-since-midnight total. -/
def renderMinutes (totalMinutes : Int) : String :=
  let newHour0 := (Int.fdiv totalMinutes 60).tmod 12
  let newHour := if newHour0 == 0 then (12 : Int) else newHour0
  let newMin := totalMinutes.tmod 60
  let newPeriod := if totalMinutes >= 720 then "PM" else "AM"
  toString newHour ++ ":" ++ padStart2 (toString newMin) ++ " " ++ newPeriod

/-- Companion lookup over the entire unfiltered schedule (source lines
167-169): the first record with the same backend `topic_id` and
`type === "qna"`. -/
def findCompanion (schedule : List RawRecord) (tid : Int) : Option RawRecord :=
  schedule.find? (fun q => q.topic_id == tid && q.type == "qna")

/-- The normalizer's filter (source line 164): `item.topic && item.summary`,
JS truthiness on strings being non-emptiness. -/
def keptRecords (schedule : List RawRecord) : List RawRecord :=
  schedule.filter (fun item => item.topic != "" && item.summary != "")

/-- The topic built for one kept record at its 0-based position `index` in the
filtered list (source lines 165-195). -/
def mkTopic (schedule : List RawRecord) (index : Nat) (item : RawRecord) : Topic :=
  let qnaSession := findCompanion schedule item.topic_id
  { topic_id := (index : Int) + 1
    topic := item.topic
    start_time := item.start_time
    end_time :=
      match qnaSession with
      | some q => if q.end_time != "" then q.end_time else item.end_time
      | none => item.end_time
    allocated_time := item.allocated_time +
      (match qnaSession with
       | some q => q.duration
       | none => 0)
    completed := false
    summary := item.summary
    qna := item.qna
    suggested_time := if item.allocated_time != 0 then item.allocated_time else 30
    sessions :=
      { type := "study", start_time := item.start_time, end_time := item.end_time,
        duration := if item.allocated_time != 0 then item.allocated_time else 30 } ::
      (match qnaSession with
       | some q => [{ type := "qna", start_time := q.start_time, end_time := q.end_time,
                      duration := q.duration }]
       | none => [])
  }

/-- The schedule normalizer (source lines 163-196): filter to study-bearing
records, then map with the 0-based index over the kept records. -/
def transformedPlan (schedule : List RawRecord) : List Topic :=
  (keptRecords schedule).enum.map (fun p => mkTopic schedule p.1 p.2)

/-- The allocated minutes stored at position `j` of a plan (the source reads
`newPlan[topicIndex].allocated_time`; position `j` always exists when it
comes from `findIndex`, so the `getD 0` default is never taken). -/
def oldAllocatedAt (plan : List Topic) (j : Nat) : Nat :=
  ((plan.get? j).map Topic.allocated_time).getD 0

/-- The time-reflow engine (source lines 259-276, the state update inside
`updateTopicTiming`): locate the topic by id, overwrite its allocation with
the actual time and mark it completed, and when time was saved shift every
later topic's start and end earlier by the saved amount. The source's
in-place loop over a copied array is embedded as a pure map over the
enumerated list. -/
def updateTopicTiming (plan : List Topic) (topicId : Int) (actualTime : Nat) : List Topic :=
  match plan.findIdx? (fun t => t.topic_id == topicId) with
  | none => plan
  | some topicIndex =>
    let timeSaved : Int := (oldAllocatedAt plan topicIndex : Int) - (actualTime : Int)
    plan.enum.map (fun p =>
      if p.1 = topicIndex then
        { p.2 with allocated_time := actualTime, completed := true }
      else if topicIndex < p.1 ∧ 0 < timeSaved then
        { p.2 with start_time := addMinutes p.2.start_time (-timeSaved),
                   end_time := addMinutes p.2.end_time (-timeSaved) }
      else p.2)

/-- The quiz scorer (source lines 339-352): per-question results with the
selected answer compared against the correct key, and the score accumulated
exactly as the source's mutable counter does. The JS answer object keyed by
question index is embedded as a function to `Option String`; an absent entry
is `none` and, like `undefined === qna.correct`, never matches. -/
def evaluateAnswers (qna : List MCQ) (selectedAnswers : Nat → Option String) :
    Nat × List AnswerResult :=
  let results := qna.enum.map (fun p =>
    ({ question := p.2.question, correct := p.2.correct,
       selected := selectedAnswers p.1,
       isCorrect := selectedAnswers p.1 == some p.2.correct } : AnswerResult))
  (results.foldl (fun score r => if r.isCorrect then score + 1 else score) 0, results)

/-- Sum of the durations in a topic's session breakdown. -/
def sessionsDurationSum (t : Topic) : Nat :=
  (t.sessions.map Session.duration).sum

/-- Sample study-bearing record with an explicit allocation. -/
def sampleStudy : RawRecord :=
  { topic := "Algebra", topic_id := 7, type := "study", start_time := "9:00 AM",
    end_time := "9:30 AM", allocated_time := 30, duration := 30,
    summary := "Linear maps", qna := [] }

/-- Sample companion record whose `end_time` is absent (embedded as the empty
string, which is falsy in JS). -/
def sampleQnaBlankEnd : RawRecord :=
  { topic := "", topic_id := 7, type := "qna", start_time := "9:30 AM",
    end_time := "", allocated_time := 0, duration := 15,
    summary := "", qna := [] }

/-- Sample study-bearing record with a falsy (missing) allocation and no
companion. -/
def sampleStudyNoAlloc : RawRecord :=
  { topic := "Sets", topic_id := 3, type := "study", start_time := "9:00 AM",
    end_time := "9:30 AM", allocated_time := 0, duration := 0,
    summary := "Basics", qna := [] }

/-- Sample raw schedule mixing the records above. -/
def sampleSchedule : List RawRecord :=
  [sampleStudy, sampleQnaBlankEnd, sampleStudyNoAlloc]

/-- A 30-minute demo topic used by the reflow witnesses. -/
def demoTopic (id : Int) (s e : String) : Topic :=
  { topic_id := id, topic := "T", start_time := s, end_time := e,
    allocated_time := 30, completed := false, summary := "S", qna := [],
    suggested_time := 30,
    sessions := [{ type := "study", start_time := s, end_time := e, duration := 30 }] }

/-- The three-topic demo plan of the spec's reflow properties: 30-minute
topics starting 9:00, 9:30 and 10:00 AM. -/
def demoPlan : List Topic :=
  [demoTopic 1 "9:00 AM" "9:30 AM",
   demoTopic 2 "9:30 AM" "10:00 AM",
   demoTopic 3 "10:00 AM" "10:30 AM"]

/-- A two-question sample quiz. -/
def sampleQuiz : List MCQ :=
  [{ question := "q1", options := [], correct := "a" },
   { question := "q2", options := [], correct := "b" }]

/-- A sample answer map that answers question 0 correctly and leaves
question 1 unanswered. -/
def sampleAnswers : Nat → Option String :=
  fun i => if i = 0 then some "a" else none

/-- Indexed maps read back positionally: mapping a function over an
enumerated list applies it to the index paired with the element. -/
theorem get?_enum_map {α β : Type} (l : List α) (f : Nat × α → β) (i : Nat) :
    (l.enum.map f).get? i = (l.get? i).map (fun a => f (i, a)) := by
  rw [List.get?_map, List.get?_enum]
  cases l.get? i <;> rfl

/-- Positional reading of the normalizer: the topic at position i is built
from the kept record at position i. -/
theorem transformedPlan_get? (schedule : List RawRecord) (i : Nat) :
    (transformedPlan schedule).get? i =
      ((keptRecords schedule).get? i).map (mkTopic schedule i) := by
  unfold transformedPlan
  rw [get?_enum_map]

/-- Positional characterization of the reflow update when the topic id is
found at position j. -/
theorem updateTopicTiming_found (plan : List Topic) (topicId : Int) (actualTime : Nat)
    (j : Nat) (hfind : plan.findIdx? (fun t => t.topic_id == topicId) = some j) (i : Nat) :
    (updateTopicTiming plan topicId actualTime).get? i =
      (plan.get? i).map (fun t =>
        if i = j then { t with allocated_time := actualTime, completed := true }
        else if j < i ∧ 0 < (oldAllocatedAt plan j : Int) - (actualTime : Int) then
          { t with
            start_time :=
              addMinutes t.start_time (-((oldAllocatedAt plan j : Int) - (actualTime : Int))),
            end_time :=
              addMinutes t.end_time (-((oldAllocatedAt plan j : Int) - (actualTime : Int))) }
        else t) := by
  unfold updateTopicTiming
  rw [hfind]
  exact get?_enum_map _ _ i

/-- C8: a completion event whose topicId matches no topic of the plan is a
no-op: the plan comes back with every topic and every field unchanged, and
no error is raised (the function is total). -/
theorem updateTopicTiming_unknown_noop (plan : List Topic) (topicId : Int) (actualTime : Nat)
    (h : ∀ t ∈ plan, t.topic_id ≠ topicId) :
    updateTopicTiming plan topicId actualTime = plan := by
  have hnone : plan.findIdx? (fun t => t.topic_id == topicId) = none :=
    List.findIdx?_eq_none_iff.mpr (fun t ht => by simpa using h t ht)
  unfold updateTopicTiming
  rw [hnone]

/-- Witness for C8: completing the unknown id 99 on the demo plan returns it
unchanged. -/
theorem updateTopicTiming_unknown_noop_witness :
    updateTopicTiming demoPlan 99 20 = demoPlan :=
  updateTopicTiming_unknown_noop demoPlan 99 20 (by decide)

/-- C10: a completion event never adds, removes or reorders topics: the
result has the same length and at every position the same topic identity
(topic_id, title, summary and quiz are untouched). -/
theorem updateTopicTiming_preserves_structure (plan : List Topic) (topicId : Int)
    (actualTime : Nat) :
    (updateTopicTiming plan topicId actualTime).length = plan.length ∧
    ∀ i : Nat,
      ((updateTopicTiming plan topicId actualTime).get? i).map Topic.topic_id =
          (plan.get? i).map Topic.topic_id ∧
      ((updateTopicTiming plan topicId actualTime).get? i).map Topic.topic =
          (plan.get? i).map Topic.topic ∧
      ((updateTopicTiming plan topicId actualTime).get? i).map Topic.summary =
          (plan.get? i).map Topic.summary ∧
      ((updateTopicTiming plan topicId actualTime).get? i).map Topic.qna =
          (plan.get? i).map Topic.qna := by
  rcases hfind : plan.findIdx? (fun t => t.topic_id == topicId) with _ | j
  · have hsame : updateTopicTiming plan topicId actualTime = plan := by
      unfold updateTopicTiming
      rw [hfind]
    rw [hsame]
    exact ⟨rfl, fun i => ⟨rfl, rfl, rfl, rfl⟩⟩
  · constructor
    · show (updateTopicTiming plan topicId actualTime).length = plan.length
      unfold updateTopicTiming
      rw [hfind]
      simp [List.length_map, List.enum_length]
    · intro i
      rw [updateTopicTiming_found plan topicId actualTime j hfind i]
      cases plan.get? i with
      | none => exact ⟨rfl, rfl, rfl, rfl⟩
      | some t =>
        refine ⟨?_, ?_, ?_, ?_⟩ <;> simp only [Option.map_some'] <;>
          split_ifs <;> rfl

/-- C1: for a completion on an existing topic (found at position j) with
positive actualMinutes, the engine computes timeSaved as the old allocation
minus actualMinutes; every topic strictly after position j has its start and
end times shifted earlier by exactly timeSaved via the clock-arithmetic
primitive (applied independently to each field) when timeSaved is positive,
and every topic other than the completed one keeps its times unchanged when
timeSaved is zero or negative. -/
theorem updateTopicTiming_reflow (plan : List Topic) (topicId : Int) (actualTime : Nat)
    (j : Nat) (t0 : Topic)
    (hfind : plan.findIdx? (fun t => t.topic_id == topicId) = some j)
    (hget : plan.get? j = some t0) (hpos : 0 < actualTime) :
    ∀ i : Nat, i ≠ j →
      (updateTopicTiming plan topicId actualTime).get? i =
        (plan.get? i).map (fun t =>
          if j < i ∧ 0 < (t0.allocated_time : Int) - (actualTime : Int) then
            { t with
              start_time :=
                addMinutes t.start_time (-((t0.allocated_time : Int) - (actualTime : Int))),
              end_time :=
                addMinutes t.end_time (-((t0.allocated_time : Int) - (actualTime : Int))) }
          else t) := by
  intro i hij
  have hold : oldAllocatedAt plan j = t0.allocated_time := by
    unfold oldAllocatedAt
    rw [hget]
    rfl
  rw [updateTopicTiming_found plan topicId actualTime j hfind i, hold]
  cases plan.get? i with
  | none => rfl
  | some t => simp only [Option.map_some', if_neg hij]

/-- Witness for C1: on the three-topic demo plan, completing topic 1 with 20
actual minutes moves topics 2 and 3 to start at 9:20 and 9:50 AM (topic 2
now ending 9:50 AM), while completing it with 40 actual minutes leaves their
times unchanged. -/
theorem updateTopicTiming_reflow_witness :
    ((updateTopicTiming demoPlan 1 20).get? 1).map Topic.start_time = some "9:20 AM" ∧
    ((updateTopicTiming demoPlan 1 20).get? 1).map Topic.end_time = some "9:50 AM" ∧
    ((updateTopicTiming demoPlan 1 20).get? 2).map Topic.start_time = some "9:50 AM" ∧
    ((updateTopicTiming demoPlan 1 40).get? 1).map Topic.start_time = some "9:30 AM" ∧
    ((updateTopicTiming demoPlan 1 40).get? 2).map Topic.start_time = some "10:00 AM" := by
  have h20 := updateTopicTiming_reflow demoPlan 1 20 0 (demoTopic 1 "9:00 AM" "9:30 AM")
    (by decide) (by decide) (by decide)
  have h40 := updateTopicTiming_reflow demoPlan 1 40 0 (demoTopic 1 "9:00 AM" "9:30 AM")
    (by decide) (by decide) (by decide)
  refine ⟨?_, ?_, ?_, ?_, ?_⟩
  · rw [h20 1 (by decide)]; decide
  · rw [h20 1 (by decide)]; decide
  · rw [h20 2 (by decide)]; decide
  · rw [h40 1 (by decide)]; decide
  · rw [h40 2 (by decide)]; decide

/-- C7: a completion event changes the completed topic (position j) only in
its allocated minutes (overwritten with the actual time) and completed flag;
its start, end, sessions and all remaining fields are kept, and every topic
strictly before position j is entirely unchanged. -/
theorem updateTopicTiming_frame (plan : List Topic) (topicId : Int) (actualTime : Nat)
    (j : Nat) (t0 : Topic)
    (hfind : plan.findIdx? (fun t => t.topic_id == topicId) = some j)
    (hget : plan.get? j = some t0) :
    (∀ i : Nat, i < j → (updateTopicTiming plan topicId actualTime).get? i = plan.get? i) ∧
    (updateTopicTiming plan topicId actualTime).get? j =
      some { t0 with allocated_time := actualTime, completed := true } := by
  constructor
  · intro i hij
    rw [updateTopicTiming_found plan topicId actualTime j hfind i]
    cases plan.get? i with
    | none => rfl
    | some t =>
      have h1 : ¬ (i = j) := Nat.ne_of_lt hij
      have h2 : ¬ (j < i ∧ 0 < (oldAllocatedAt plan j : Int) - (actualTime : Int)) :=
        fun hc => Nat.lt_asymm hij hc.1
      simp only [Option.map_some', if_neg h1, if_neg h2]
  · rw [updateTopicTiming_found plan topicId actualTime j hfind j, hget]
    simp

/-- Witness for C7: completing topic 2 of the demo plan with 25 actual
minutes leaves topic 1 untouched and rewrites topic 2 to the same record
with allocation 25 and the completed flag set. -/
theorem updateTopicTiming_frame_witness :
    (updateTopicTiming demoPlan 2 25).get? 0 = demoPlan.get? 0 ∧
    (updateTopicTiming demoPlan 2 25).get? 1 =
      some { demoTopic 2 "9:30 AM" "10:00 AM" with allocated_time := 25, completed := true } := by
  have h := updateTopicTiming_frame demoPlan 2 25 1 (demoTopic 2 "9:30 AM" "10:00 AM")
    (by decide) (by decide)
  exact ⟨h.1 0 (by decide), h.2⟩

/-- C2: the normalizer keeps exactly the records with non-empty topic and
summary; the plan has one topic per kept record, and position i carries
topic_id i+1, so the ids are exactly 1..N, dense and strictly increasing in
the kept records' input order (the backend id is discarded). -/
theorem transformedPlan_dense_renumbering (schedule : List RawRecord) :
    (∀ r : RawRecord, r ∈ keptRecords schedule ↔
      (r ∈ schedule ∧ r.topic ≠ "" ∧ r.summary ≠ "")) ∧
    (transformedPlan schedule).length = (keptRecords schedule).length ∧
    (∀ i : Nat, i < (transformedPlan schedule).length →
      ((transformedPlan schedule).get? i).map Topic.topic_id = some ((i : Int) + 1)) := by
  refine ⟨?_, ?_, ?_⟩
  · intro r
    simp [keptRecords, List.mem_filter, and_assoc]
  · simp [transformedPlan, List.length_map, List.enum_length]
  · intro i hi
    have hlen : i < (keptRecords schedule).length := by
      simpa [transformedPlan, List.length_map, List.enum_length] using hi
    have h := List.get?_eq_some.mpr ⟨hlen, rfl⟩
    rw [transformedPlan_get?, h]
    rfl

/-- Witness for C2: on the sample schedule (three records, one of which is
filtered out) the plan's topics carry ids 1 and 2 and the study record is
kept. -/
theorem transformedPlan_dense_renumbering_witness :
    ((transformedPlan sampleSchedule).get? 0).map Topic.topic_id = some 1 ∧
    ((transformedPlan sampleSchedule).get? 1).map Topic.topic_id = some 2 ∧
    sampleStudy ∈ keptRecords sampleSchedule := by
  have h := transformedPlan_dense_renumbering sampleSchedule
  refine ⟨?_, ?_, (h.1 sampleStudy).mpr (by decide)⟩
  · have h0 := h.2.2 0 (by decide)
    simpa using h0
  · have h1 := h.2.2 1 (by decide)
    simpa using h1

/-- C3 (amended): for every kept study record, if the unfiltered input has a
companion record (same backend topic_id and type "qna"; the first match in
input order is used) then the resulting topic's sessions have length 2, the
second session's duration is the companion's duration, and the topic's
end_time is the companion's end_time when that is non-empty and otherwise
the study record's own end_time; with no companion, sessions has length 1
and allocated_time is the study record's own duration alone. -/
theorem transformedPlan_companion_pairing (schedule : List RawRecord) (i : Nat)
    (item : RawRecord) (hi : (keptRecords schedule).get? i = some item) :
    (∀ q : RawRecord, findCompanion schedule item.topic_id = some q →
      ((transformedPlan schedule).get? i).map (fun t => t.sessions.length) = some 2 ∧
      ((transformedPlan schedule).get? i).map
          (fun t => (t.sessions.get? 1).map Session.duration) = some (some q.duration) ∧
      ((transformedPlan schedule).get? i).map Topic.end_time =
        some (if q.end_time != "" then q.end_time else item.end_time)) ∧
    (findCompanion schedule item.topic_id = none →
      ((transformedPlan schedule).get? i).map (fun t => t.sessions.length) = some 1 ∧
      ((transformedPlan schedule).get? i).map Topic.allocated_time =
        some item.allocated_time) := by
  rw [transformedPlan_get?, hi]
  constructor
  · intro q hq
    refine ⟨?_, ?_, ?_⟩ <;> simp [mkTopic, hq]
  · intro hq
    refine ⟨?_, ?_⟩ <;> simp [mkTopic, hq]

/-- Witness for C3: in the sample schedule the Algebra topic pairs with its
Q and A companion (two sessions, second lasting 15 minutes) and the Sets
topic has no companion (one session). -/
theorem transformedPlan_companion_pairing_witness :
    ((transformedPlan sampleSchedule).get? 0).map (fun t => t.sessions.length) = some 2 ∧
    ((transformedPlan sampleSchedule).get? 0).map
        (fun t => (t.sessions.get? 1).map Session.duration) = some (some 15) ∧
    ((transformedPlan sampleSchedule).get? 1).map (fun t => t.sessions.length) = some 1 := by
  have h := transformedPlan_companion_pairing sampleSchedule 0 sampleStudy (by decide)
  have h2 := transformedPlan_companion_pairing sampleSchedule 1 sampleStudyNoAlloc (by decide)
  have hc := h.1 sampleQnaBlankEnd (by decide)
  exact ⟨hc.1, hc.2.1, (h2.2 (by decide)).1⟩

/-- Counterexample to C3 as stated: the Algebra study record has a companion
whose end_time is absent (embedded as the empty string). The claim requires
the topic's end_time to equal the companion's end_time whenever a companion
exists, but the code's falsy fallback keeps the study record's own end_time
"9:30 AM" instead of the companion's "". -/
theorem companion_end_time_counterexample :
    findCompanion sampleSchedule sampleStudy.topic_id = some sampleQnaBlankEnd ∧
    (keptRecords sampleSchedule).get? 0 = some sampleStudy ∧
    ((transformedPlan sampleSchedule).get? 0).map Topic.end_time = some "9:30 AM" ∧
    sampleQnaBlankEnd.end_time ≠ "9:30 AM" := by decide

/-- C4: a kept study record with falsy allocated_time gets the default 30
only in the first session's display duration and in suggested_minutes; the
summed allocated_time still counts the study duration as 0, so it equals the
companion's duration alone (or 0 with no companion); and every normalized
topic has a non-negative integer allocated_time. -/
theorem transformedPlan_default_asymmetry (schedule : List RawRecord) :
    (∀ (i : Nat) (item q : RawRecord), (keptRecords schedule).get? i = some item →
      item.allocated_time = 0 →
      findCompanion schedule item.topic_id = some q →
      ((transformedPlan schedule).get? i).map
          (fun t => (t.sessions.get? 0).map Session.duration) = some (some 30) ∧
      ((transformedPlan schedule).get? i).map Topic.suggested_time = some 30 ∧
      ((transformedPlan schedule).get? i).map Topic.allocated_time = some q.duration) ∧
    (∀ (i : Nat) (item : RawRecord), (keptRecords schedule).get? i = some item →
      item.allocated_time = 0 →
      findCompanion schedule item.topic_id = none →
      ((transformedPlan schedule).get? i).map
          (fun t => (t.sessions.get? 0).map Session.duration) = some (some 30) ∧
      ((transformedPlan schedule).get? i).map Topic.suggested_time = some 30 ∧
      ((transformedPlan schedule).get? i).map Topic.allocated_time = some 0) ∧
    (∀ t ∈ transformedPlan schedule, 0 ≤ (t.allocated_time : Int)) := by
  refine ⟨?_, ?_, ?_⟩
  · intro i item q hi h0 hq
    rw [transformedPlan_get?, hi]
    refine ⟨?_, ?_, ?_⟩ <;> simp [mkTopic, hq, h0]
  · intro i item hi h0 hq
    rw [transformedPlan_get?, hi]
    refine ⟨?_, ?_, ?_⟩ <;> simp [mkTopic, hq, h0]
  · intro t _
    exact Int.natCast_nonneg t.allocated_time

/-- Witness for C4: the Sets record has falsy allocation and no companion;
its topic displays a 30-minute study session yet carries allocated_time 0. -/
theorem transformedPlan_default_asymmetry_witness :
    ((transformedPlan sampleSchedule).get? 1).map
        (fun t => (t.sessions.get? 0).map Session.duration) = some (some 30) ∧
    ((transformedPlan sampleSchedule).get? 1).map Topic.allocated_time = some 0 := by
  have h := (transformedPlan_default_asymmetry sampleSchedule).2.1 1 sampleStudyNoAlloc
    (by decide) (by decide) (by decide)
  exact ⟨h.1, h.2.2⟩

/-- Counterexample to C5 as stated: the topic normalized from the Sets record
(falsy allocated_time, no companion) has session durations summing to 30
(the display default) while its allocated_time is 0, so the sum-equality
fails at the moment of normalization. -/
theorem sessions_sum_counterexample :
    ((transformedPlan sampleSchedule).get? 1).map sessionsDurationSum = some 30 ∧
    ((transformedPlan sampleSchedule).get? 1).map Topic.allocated_time = some 0 ∧
    (30 : Nat) ≠ 0 := by decide

/-- C5 (amended): for every topic produced by normalization from a kept study
record whose allocated_time is non-falsy (non-zero), the session durations
sum exactly to the topic's allocated_time. -/
theorem transformedPlan_sessions_sum (schedule : List RawRecord) (i : Nat)
    (item : RawRecord) (hi : (keptRecords schedule).get? i = some item)
    (halloc : item.allocated_time ≠ 0) :
    ((transformedPlan schedule).get? i).map sessionsDurationSum =
      ((transformedPlan schedule).get? i).map Topic.allocated_time := by
  rw [transformedPlan_get?, hi]
  rcases hq : findCompanion schedule item.topic_id with _ | q <;>
    simp [mkTopic, sessionsDurationSum, hq, halloc]

/-- Witness for C5: the Algebra topic (allocation 30, companion 15 minutes)
has session durations summing to its allocated 45 minutes. -/
theorem transformedPlan_sessions_sum_witness :
    ((transformedPlan sampleSchedule).get? 0).map sessionsDurationSum =
      ((transformedPlan sampleSchedule).get? 0).map Topic.allocated_time :=
  transformedPlan_sessions_sum sampleSchedule 0 sampleStudy (by decide) (by decide)

/-- Folding the source's mutable score counter over a list is counting. -/
theorem foldl_count_eq_countP {α : Type} (p : α → Bool) (l : List α) (n : Nat) :
    l.foldl (fun score r => if p r then score + 1 else score) n = n + l.countP p := by
  induction l generalizing n with
  | nil => simp
  | cons a l ih =>
    simp only [List.foldl_cons, List.countP_cons, ih]
    split_ifs <;> omega

/-- A member that fails the predicate makes the count strictly smaller than
the length. -/
theorem countP_lt_length {α : Type} (p : α → Bool) {l : List α} {a : α}
    (ha : a ∈ l) (hpa : p a = false) : l.countP p < l.length := by
  induction l with
  | nil => cases ha
  | cons b l ih =>
    rcases List.mem_cons.mp ha with rfl | hmem
    · have hle := List.countP_le_length p (l := l)
      simp only [List.countP_cons, hpa, Bool.false_eq_true, if_false, List.length_cons]
      omega
    · have hlt := ih hmem
      simp only [List.countP_cons, List.length_cons]
      split_ifs <;> omega

/-- C9: the score returned by the evaluator counts exactly the question
indices whose recorded answer equals that question's correct option key; an
unanswered question is marked isCorrect = false (never an error, the
function being total over partial answer maps), so an answer map missing an
entry below the quiz length yields a score of at most Q - 1. -/
theorem evaluateAnswers_spec (qna : List MCQ) (answers : Nat → Option String) :
    (evaluateAnswers qna answers).1 =
      qna.enum.countP (fun p => answers p.1 == some p.2.correct) ∧
    (∀ i : Nat, i < qna.length → answers i = none →
      ((evaluateAnswers qna answers).2.get? i).map AnswerResult.isCorrect = some false) ∧
    (∀ i : Nat, i < qna.length → answers i = none →
      (evaluateAnswers qna answers).1 ≤ qna.length - 1) := by
  have hres : ∀ i : Nat, (evaluateAnswers qna answers).2.get? i =
      (qna.get? i).map (fun q =>
        ({ question := q.question, correct := q.correct, selected := answers i,
           isCorrect := answers i == some q.correct } : AnswerResult)) := by
    intro i
    exact get?_enum_map qna _ i
  have hscore : (evaluateAnswers qna answers).1 =
      qna.enum.countP (fun p => answers p.1 == some p.2.correct) := by
    dsimp only [evaluateAnswers]
    rw [foldl_count_eq_countP, List.countP_map]
    simp only [Nat.zero_add]
    rfl
  refine ⟨hscore, ?_, ?_⟩
  · intro i hi hnone
    obtain ⟨q, hq⟩ : ∃ q, qna.get? i = some q := by
      cases hqi : qna.get? i with
      | none => exact absurd (List.get?_eq_none.mp hqi) (by omega)
      | some q => exact ⟨q, rfl⟩
    rw [hres i, hq]
    simp only [Option.map_some', hnone]
    rfl
  · intro i hi hnone
    obtain ⟨q, hq⟩ : ∃ q, qna.get? i = some q := by
      cases hqi : qna.get? i with
      | none => exact absurd (List.get?_eq_none.mp hqi) (by omega)
      | some q => exact ⟨q, rfl⟩
    have henum : qna.enum.get? i = some (i, q) := by
      rw [List.get?_enum, hq]
      rfl
    have hmem := List.get?_mem henum
    have hfalse : (answers i == some q.correct) = false := by
      rw [hnone]
      rfl
    have hlt := countP_lt_length (fun p => answers p.1 == some p.2.correct) hmem
      (by exact hfalse)
    have hlen : qna.enum.length = qna.length := List.enum_length
    rw [hscore]
    omega

/-- Witness for C9: on the two-question sample quiz with question 1
unanswered, the score is at most 1 and question 1 is marked incorrect. -/
theorem evaluateAnswers_spec_witness :
    (evaluateAnswers sampleQuiz sampleAnswers).1 ≤ 1 ∧
    ((evaluateAnswers sampleQuiz sampleAnswers).2.get? 1).map AnswerResult.isCorrect
      = some false := by
  have h := evaluateAnswers_spec sampleQuiz sampleAnswers
  exact ⟨h.2.2 1 (by decide) (by decide), h.2.1 1 (by decide) (by decide)⟩

/-- The PM adjustment of 720 minutes commutes with adding the delta. -/
theorem ite_add_comm720 (c : Bool) (a d : Int) :
    (if c = true then a + d + 720 else a + d) = (if c = true then a + 720 else a) + d := by
  cases c <;> simp <;> ring

/-- addMinutes is the render half applied to the parse half plus the delta
(the source adds the delta before the PM adjustment; integer addition
commutes). -/
theorem addMinutes_eq (timeStr : String) (minutes : Int) :
    addMinutes timeStr minutes = renderMinutes (parseMinutes timeStr + minutes) := by
  simp only [addMinutes, parseMinutes, renderMinutes, ite_add_comm720]

set_option maxRecDepth 8000 in
set_option maxHeartbeats 4000000 in
theorem parseMinutes_renderMinutes_key :
    ∀ h : Nat, h < 24 → ∀ m : Nat, m < 60 → 1 ≤ h →
      parseMinutes (renderMinutes ((h : Int) * 60 + m)) = (h : Int) * 60 + m := by
  decide

/-- Re-parsing a rendered minutes value between 1:00 AM and 11:59 PM is the
identity. Values below 60 render with hour 12 and re-parse 720 minutes too
high, which is why the hour-zero strings are excluded. -/
theorem parseMinutes_renderMinutes (T : Int) (h1 : 60 ≤ T) (h2 : T ≤ 1439) :
    parseMinutes (renderMinutes T) = T := by
  have hk := parseMinutes_renderMinutes_key (T.toNat / 60) (by omega) (T.toNat % 60)
    (by omega) (by omega)
  have he : ((T.toNat / 60 : Nat) : Int) * 60 + ((T.toNat % 60 : Nat) : Int) = T := by omega
  rw [he] at hk
  exact hk

/-- C6 (amended): the add-then-subtract round trip restores any clock string
the code's own renderer can produce, that is any valid clock string except
the "12:MM AM" family, provided both intermediate totals stay between 60 and
1439 minutes (1:00 AM through 11:59 PM). The exclusions are forced: the
parser maps 12 AM strings to 720 plus the minutes, not 0, so they re-render
as 12-hour PM strings, and totals below 60 render with hour 12 and do not
re-parse to themselves. -/
theorem addMinutes_roundTrip (T d : Int) (h1 : 60 ≤ T) (h2 : T ≤ 1439)
    (h3 : 60 ≤ T + d) (h4 : T + d ≤ 1439) :
    addMinutes (addMinutes (renderMinutes T) d) (-d) = renderMinutes T := by
  have hc : T + d + -d = T := by ring
  rw [addMinutes_eq, addMinutes_eq, parseMinutes_renderMinutes T h1 h2,
    parseMinutes_renderMinutes (T + d) h3 h4, hc]

/-- Witness for C6: shifting 9:00 AM (rendered from 540 minutes) forward 30
minutes and back restores it. -/
theorem addMinutes_roundTrip_witness :
    addMinutes (addMinutes (renderMinutes 540) 30) (-30) = renderMinutes 540 :=
  addMinutes_roundTrip 540 30 (by decide) (by decide) (by decide) (by decide)

/-- Counterexample to C6 as stated: t = "12:30 AM" with d = 10 crosses no
AM/PM boundary at 0 or 720 minutes (the parsed totals are 750 and 760), yet
the round trip returns "12:30 PM". The stated parsing convention also fails:
the code parses 12 AM as 720 plus the minutes, not 0. -/
theorem addMinutes_roundTrip_counterexample :
    addMinutes (addMinutes "12:30 AM" 10) (-10) = "12:30 PM" ∧
    ("12:30 PM" : String) ≠ "12:30 AM" ∧
    parseMinutes "12:30 AM" = 750 ∧
    parseMinutes "12:00 AM" = 720 := by decide

end StudyPlanner
